import Mathlib

/-!
# Verification of the Convoy pipeline extractor

A shallow embedding of server/scripts/parse_python_pipeline.py: the script
reads a Python source, parses it to an AST, walks the statements with a
NodeVisitor and emits a JSON pipeline of Convoy steps together with a
fallback flag.  The embedding models the Python AST shapes the extractor
inspects, ports each helper and recognizer, and proves the behavioural
properties of the accompanying specification.

Conventions of the embedding:
* Python AST nodes are the inductive types PyVal, CmpOp, Expr and Stmt.
  Only the node shapes a parse of real source can produce are modelled
  (the dead compatibility branches for ast.Num / ast.Str / ast.Index of
  old Python versions are omitted).
* Source positions: the extractor reads a position exactly once, namely
  lineno / end_lineno of the right-hand side of an assignment (for the
  computedColumn span).  That position is recorded on the assignment
  statement as a Pos value; end_lineno = 0 encodes a missing (falsy)
  end_lineno, mirroring the source's "node.end_lineno or node.lineno".
* Python values that flow into a step config (strings, ints, bools,
  None, lists of strings) are ConfigVal.
* The outer main() of the script normalizes three tiers (parse failure,
  traversal fault, normal completion) to one output shape; the tier is
  the RunOutcome type and mainOutput embeds the normalization.
-/

namespace Convoy

/-- A Python literal as stored in an ast.Constant node.  noneV is the
literal None; Python code that returns "node.value or-else None" therefore
conflates a None literal with absence, which the embedding mirrors. -/
inductive PyVal where
  | str (s : String)
  | int (n : Int)
  | bool (b : Bool)
  | noneV
  deriving DecidableEq, Repr

/-- Python comparison operators (ast.cmpop). -/
inductive CmpOp where
  | eq | notEq | lt | ltE | gt | gtE
  | isOp | isNotOp | inOp | notInOp
  deriving DecidableEq, Repr

/-- Source position of an expression: lineno and end_lineno as the parser
records them.  end_lineno = 0 encodes a missing / falsy end_lineno. -/
structure Pos where
  lineno : Nat
  end_lineno : Nat
  deriving DecidableEq, Repr

/-- The Python expression nodes the extractor inspects.  keywords of a
call are (arg?, value) pairs; arg = none is a **kwargs splat. -/
inductive Expr where
  | constant (v : PyVal)
  | name (id : String)
  | attribute (value : Expr) (attr : String)
  | subscript (value : Expr) (slice : Expr)
  | compare (left : Expr) (ops : List CmpOp) (comparators : List Expr)
  | call (func : Expr) (args : List Expr) (keywords : List (Option String × Expr))
  | listE (elts : List Expr)
  | tupleE (elts : List Expr)
  deriving Repr

/-- Statements as the traversal sees them: an assignment (with the source
position of its right-hand side), a bare expression statement, or any
other statement; the NodeVisitor's generic_visit recurses into the
statements nested inside the latter (bodies of if / for / while / def
and so on), which the `other` constructor records in visit order. -/
inductive Stmt where
  | assign (targets : List Expr) (value : Expr) (vpos : Pos)
  | exprStmt (value : Expr)
  | other (body : List Stmt)
  deriving Repr

/-- One value of a step's config mapping, as it is serialized to JSON. -/
inductive ConfigVal where
  | s (v : String)
  | i (n : Int)
  | b (v : Bool)
  | null
  | strList (vs : List String)
  deriving DecidableEq, Repr

/-- One accumulated pipeline step, the dict {"kind": ..., "config": ...}. -/
structure Step where
  kind : String
  config : List (String × ConfigVal)
  deriving DecidableEq, Repr

/-- Python str() on the modelled literal values. -/
def pyStr : PyVal → String
  | .str s => s
  | .int n => toString n
  | .bool b => if b then "True" else "False"
  | .noneV => "None"

/-- Python bool() (truthiness) on the modelled literal values. -/
def pyBool : PyVal → Bool
  | .str s => !(s == "")
  | .int n => !(n == 0)
  | .bool b => b
  | .noneV => false

/-- Injection of a Python value into a JSON config value. -/
def pyToConfig : PyVal → ConfigVal
  | .str s => .s s
  | .int n => .i n
  | .bool b => .b b
  | .noneV => .null

/-- FILTER_OPS: the dict from comparison operator to Convoy operator name;
none models absence from the dict.  Both Lt and LtE map to "lt", both Gt
and GtE map to "gt" (the documented lossy collapse). -/
def FILTER_OPS : CmpOp → Option String
  | .eq => some "eq"
  | .notEq => some "neq"
  | .lt => some "lt"
  | .ltE => some "lt"
  | .gt => some "gt"
  | .gtE => some "gt"
  | _ => none

/-- get_constant_value: the value of an ast.Constant, else Python None.
Because a None literal is itself returned as None, the two cases collapse
to noneV, exactly as in the source. -/
def get_constant_value : Expr → PyVal
  | .constant v => v
  | _ => .noneV

/-- get_string_from_node: a string literal resolves to itself and a
subscript resolves through its slice recursively; everything else is
Python None. -/
def get_string_from_node : Expr → Option String
  | .constant (.str s) => some s
  | .subscript _ slc => get_string_from_node slc
  | _ => none

/-- The source's "if hasattr(x, 'value'): x = x.value" unwrap.  Among the
modelled nodes, attribute and subscript have an AST .value child; an
ast.Constant also has a .value attribute, but it holds the raw literal
(not an AST node), so every isinstance test performed on the unwrapped
result afterwards fails - modelled as none.  All other nodes have no
.value attribute and are left as they are. -/
def unwrap_value_attr : Expr → Option Expr
  | .constant _ => none
  | .attribute v _ => some v
  | .subscript v _ => some v
  | e => some e

/-- The element loop of get_column_list: append the resolved string of
every element that resolves (elements that do not resolve to a string are
skipped, not fatal). -/
def column_strings (elts : List Expr) : List String :=
  elts.foldl (fun acc e =>
    match get_string_from_node e with
    | some s => acc ++ [s]
    | none => acc) []

/-- get_column_list: from a subscript whose (unwrapped) slice is a tuple
or list literal, the list of element strings; Python returns None when
the collected list is empty ("return cols if cols else None"). -/
def get_column_list : Expr → Option (List String)
  | .subscript _ slc =>
      match unwrap_value_attr slc with
      | some (.listE elts) =>
          let cols := column_strings elts
          if cols.isEmpty then none else some cols
      | some (.tupleE elts) =>
          let cols := column_strings elts
          if cols.isEmpty then none else some cols
      | _ => none
  | _ => none

/-- unparse_simple: join and trim the literal source lines spanned by the
node's position; start = lineno - 1, end = "end_lineno or lineno". -/
def unparse_simple (vpos : Pos) (source_lines : List String) : String :=
  let start := vpos.lineno - 1
  let stop := if vpos.end_lineno == 0 then vpos.lineno else vpos.end_lineno
  (String.intercalate " " ((source_lines.drop start).take (stop - start))).trim

/-- The filter/select block of visit_Assign (the right-hand side is a
subscript): first try the comparison shape "df[df[col] op literal]";
when that declines, try the column-list shape "df[[a, b, ...]]". -/
def filter_select_step (value : Expr) : Option Step :=
  match value with
  | .subscript base slc =>
      let fromCompare : Option Step :=
        match unwrap_value_attr slc with
        | some (.compare left ops comparators) =>
            match comparators, ops with
            | [right], op :: _ =>
                match get_string_from_node left with
                | some col =>
                    if col == "" then none
                    else
                      match FILTER_OPS op with
                      | some convoy_op =>
                          let val := get_constant_value right
                          if val == PyVal.noneV then none
                          else some ⟨"filter",
                            [("column", .s col), ("operator", .s convoy_op),
                             ("value", .s (pyStr val))]⟩
                      | none => none
                | none => none
            -- a Compare with one comparator always has one op in a parsed
            -- AST, so the empty-ops case is unreachable from real input
            | _, _ => none
        | _ => none
      match fromCompare with
      | some stp => some stp
      | none =>
          match get_column_list (.subscript base slc) with
          | some list_cols => some ⟨"select", [("columns", .strList list_cols)]⟩
          | none => none
  | _ => none

/-- The read_csv recognizer: "pd.read_csv(...)" or "pandas.read_csv(...)";
the fileName falls back to "data.csv" when the first argument is absent
or does not resolve to a truthy string. -/
def read_csv_step (func : Expr) (args : List Expr) : Option Step :=
  match func with
  | .attribute fv attr =>
      if attr == "read_csv" then
        match fv with
        | .name nm =>
            if nm == "pd" || nm == "pandas" then
              let fname :=
                match args with
                | arg0 :: _ =>
                    match get_string_from_node arg0 with
                    | some s => if s == "" then "" else s
                    | none => ""
                | [] => ""
              some ⟨"dataSource",
                [("fileName", .s (if fname == "" then "data.csv" else fname))]⟩
            else none
        | _ => none
      else none
  | _ => none

/-- The one-shot groupby recognizer "df.groupby(...)": the group column
comes from a constant first argument (its raw value, whatever its type)
or from get_string_from_node, the aggregate column from an intervening
subscript on the callee, a trailing by= keyword overrides the group
column, and the aggregation is hardcoded to "count". -/
def groupby_step (func : Expr) (args : List Expr)
    (keywords : List (Option String × Expr)) : Option Step :=
  match func with
  | .attribute fv attr =>
      if attr == "groupby" then
        let group_col : PyVal :=
          match args with
          | arg0 :: _ =>
              match arg0 with
              | .constant v => v
              | _ =>
                  match get_string_from_node arg0 with
                  | some s => .str s
                  | none => .noneV
          | [] => .str ""
        let agg_col : PyVal :=
          match fv with
          | .subscript _ slc2 =>
              match get_string_from_node slc2 with
              | some s => if s == "" then group_col else .str s
              | none => group_col
          | _ => group_col
        let group_col := keywords.foldl (fun g kw =>
          match kw with
          | (some arg, kwv) =>
              if arg == "by" then
                match get_string_from_node kwv with
                | some s => if s == "" then g else PyVal.str s
                | none => g
              else g
          | _ => g) group_col
        some ⟨"groupBy",
          [("groupByColumn", pyToConfig group_col),
           ("aggregateColumn", pyToConfig agg_col),
           ("aggregation", .s "count")]⟩
      else none
  | _ => none

/-- The while loop of the chained-aggregation recognizer: walk back along
the .value children of the callee.  Attribute and subscript nodes unwind
to their value; a subscript records an aggregate column on the way; any
call stops the walk, and only a groupby call contributes the group
column; a constant's raw .value and nodes without a .value attribute end
the walk. -/
def chain_walk : Expr → String → String → String × String
  | .call func args _, group_col, agg_col =>
      if (match func with | .attribute _ a => a == "groupby" | _ => false) then
        (match args with
         | arg0 :: _ => ((get_string_from_node arg0).getD "", agg_col)
         | [] => (group_col, agg_col))
      else (group_col, agg_col)
  | .subscript v slc, group_col, _ =>
      chain_walk v group_col
        (match get_string_from_node slc with
         | some s => if s == "" then group_col else s
         | none => group_col)
  | .attribute v _, group_col, agg_col => chain_walk v group_col agg_col
  | _, group_col, agg_col => (group_col, agg_col)

/-- The chained-aggregation recognizer ".sum() / .mean() / .count() /
.min() / .max()": walk the call chain for the group and aggregate columns
and rename mean to avg. -/
def chained_agg_step (func : Expr) : Option Step :=
  match func with
  | .attribute fval agg_method =>
      if agg_method == "sum" || agg_method == "mean" || agg_method == "count"
          || agg_method == "min" || agg_method == "max" then
        let walked := chain_walk fval "" ""
        let group_col := walked.1
        let agg_col := walked.2
        let agg_out := if agg_method == "mean" then "avg" else agg_method
        some ⟨"groupBy",
          [("groupByColumn", .s group_col),
           ("aggregateColumn", .s (if agg_col == "" then group_col else agg_col)),
           ("aggregation", .s agg_out)]⟩
      else none
  | _ => none

/-- The sort recognizer "df.sort_values(...)": positional column, then
by= and ascending= keywords (a truthy by= string overrides the column;
a non-None ascending constant is coerced with bool()). -/
def sort_step (func : Expr) (args : List Expr)
    (keywords : List (Option String × Expr)) : Option Step :=
  match func with
  | .attribute _ attr =>
      if attr == "sort_values" then
        let col :=
          match args with
          | arg0 :: _ => (get_string_from_node arg0).getD ""
          | [] => ""
        let res := keywords.foldl (fun (acc : String × Bool) kw =>
          let c1 :=
            match kw with
            | (some arg, kwv) =>
                if arg == "by" then
                  match get_string_from_node kwv with
                  | some c => if c == "" then acc.1 else c
                  | none => acc.1
                else acc.1
            | _ => acc.1
          let asc1 :=
            match kw with
            | (some arg, kwv) =>
                if arg == "ascending" then
                  let v := get_constant_value kwv
                  if v == PyVal.noneV then acc.2 else pyBool v
                else acc.2
            | _ => acc.2
          (c1, asc1)) (col, true)
        some ⟨"sort",
          [("column", .s res.1),
           ("direction", .s (if res.2 then "asc" else "desc"))]⟩
      else none
  | _ => none

/-- The element loop used by the melt recognizer: collect the truthy
strings of a sequence literal. -/
def truthy_strings (elts : List Expr) : List String :=
  elts.foldl (fun acc e =>
    match get_string_from_node e with
    | some s => if s == "" then acc else acc ++ [s]
    | none => acc) []

/-- The melt recognizer "df.melt(...)": gathers id_vars (accepted but
not emitted), value_vars, value_name and var_name from keywords and emits
a reshape step only when value_vars is nonempty. -/
def melt_step (func : Expr) (keywords : List (Option String × Expr)) : Option Step :=
  match func with
  | .attribute _ attr =>
      if attr == "melt" then
        let res := keywords.foldl
          (fun (acc : List String × List String × String × String) kw =>
            let (id_vars, value_vars, value_name, var_name) := acc
            match kw with
            | (some arg, kwv) =>
                if arg == "id_vars" then
                  match kwv with
                  | .listE elts => (id_vars ++ truthy_strings elts, value_vars, value_name, var_name)
                  | .tupleE elts => (id_vars ++ truthy_strings elts, value_vars, value_name, var_name)
                  | e =>
                      match get_string_from_node e with
                      | some s =>
                          if s == "" then acc
                          else (id_vars ++ [s], value_vars, value_name, var_name)
                      | none => acc
                else if arg == "value_vars" then
                  match kwv with
                  | .listE elts => (id_vars, value_vars ++ truthy_strings elts, value_name, var_name)
                  | .tupleE elts => (id_vars, value_vars ++ truthy_strings elts, value_name, var_name)
                  | _ => acc
                else if arg == "value_name" then
                  match get_string_from_node kwv with
                  | some s => if s == "" then acc else (id_vars, value_vars, s, var_name)
                  | none => acc
                else if arg == "var_name" then
                  match get_string_from_node kwv with
                  | some s => if s == "" then acc else (id_vars, value_vars, value_name, s)
                  | none => acc
                else acc
            | _ => acc)
          ([], [], "value", "variable")
        let value_vars := res.2.1
        if value_vars.isEmpty then none
        else some ⟨"reshape",
          [("keyColumn", .s res.2.2.2),
           ("valueColumn", .s res.2.2.1),
           ("pivotColumns", .strList value_vars)]⟩
      else none
  | _ => none

/-- The call block of visit_Assign (the right-hand side is a call): the
five call-based recognizers in source order.  Their trigger attribute
names are pairwise distinct, so at most one can fire. -/
def call_step (value : Expr) : Option Step :=
  match value with
  | .call func args keywords =>
      (read_csv_step func args).orElse (fun _ =>
      (groupby_step func args keywords).orElse (fun _ =>
      (chained_agg_step func).orElse (fun _ =>
      (sort_step func args keywords).orElse (fun _ =>
      melt_step func keywords))))
  | _ => none

/-- The whole of visit_Assign as a pure per-statement function: the step
it appends (if any) and whether it sets the fallback flag.  Every
recognizer either appends one step and returns or touches nothing, and
the flag is set exactly at the two source points: an empty computed
column span, and an unrecognized assignment whose single target is the
tracked dataframe name. -/
def recognizeAssign (lines : List String) (df_name : String)
    (targets : List Expr) (value : Expr) (vpos : Pos) : Option Step × Bool :=
  match targets with
  | [target] =>
      match filter_select_step value with
      | some stp => (some stp, false)
      | none =>
          match call_step value with
          | some stp => (some stp, false)
          | none =>
              match target with
              | .subscript tb ts =>
                  match get_string_from_node (.subscript tb ts) with
                  | some col_name =>
                      let expr_str := unparse_simple vpos lines
                      if expr_str == "" then (none, true)
                      else (some ⟨"computedColumn",
                        [("newColumnName", .s col_name),
                         ("expression", .s expr_str)]⟩, false)
                  | none => (none, false)
              | .name id => (none, id == df_name)
              | _ => (none, false)
  | _ => (none, false)

/-- The dead second disjunct of the chart guard: the source also accepts
func.value being the bare name plt, but that test sits inside an
isinstance(func.value, ast.Attribute) branch, so its argument is always
an attribute node. -/
def is_plt_name : Expr → Bool
  | .name id => id == "plt"
  | _ => false

/-- The whole of visit_Expr as a pure per-statement function: the chart
step for plotting calls of a two-level attribute whose middle name is
pyplot and whose method is bar / plot / scatter / pie. -/
def recognizeExpr (value : Expr) : Option Step :=
  match value with
  | .call func args _ =>
      match func with
      | .attribute fval chart_attr =>
          match fval with
          | .attribute fvv fattr =>
              if fattr == "pyplot" || is_plt_name (.attribute fvv fattr) then
                if chart_attr == "bar" || chart_attr == "plot"
                    || chart_attr == "scatter" || chart_attr == "pie" then
                  let chart_type :=
                    if chart_attr == "plot" then "line"
                    else if chart_attr == "scatter" then "scatter"
                    else if chart_attr == "pie" then "pie"
                    else "bar"
                  let axes : String × String :=
                    match args with
                    | [] => ("", "")
                    | [a0] => ("", (get_string_from_node a0).getD "")
                    | a0 :: a1 :: _ =>
                        ((get_string_from_node a0).getD "",
                         (get_string_from_node a1).getD "")
                  some ⟨"chart",
                    [("chartType", .s chart_type),
                     ("xAxis", .s axes.1), ("yAxis", .s axes.2)]⟩
                else none
              else none
          | _ => none
      | _ => none
  | _ => none

/-- The PipelineExtractor's state: the split source lines, the ordered
step list, the fallback flag and the tracked dataframe name. -/
structure ExtState where
  lines : List String
  steps : List Step
  fallback_to_llm : Bool
  df_name : String
  deriving DecidableEq, Repr

/-- The extractor as constructed: no steps, flag down, tracked name df. -/
def initState (source_lines : List String) : ExtState :=
  ⟨source_lines, [], false, "df"⟩

/-- visit_Assign: append the recognized step (if any) and or-in the flag. -/
def visit_Assign (st : ExtState) (targets : List Expr) (value : Expr)
    (vpos : Pos) : ExtState :=
  let r := recognizeAssign st.lines st.df_name targets value vpos
  { st with steps := st.steps ++ r.1.toList,
            fallback_to_llm := st.fallback_to_llm || r.2 }

/-- visit_Expr: append the chart step when the recognizer fires. -/
def visit_Expr (st : ExtState) (value : Expr) : ExtState :=
  { st with steps := st.steps ++ (recognizeExpr value).toList }

mutual

/-- One NodeVisitor dispatch: assignments and expression statements go to
their visitors; any other statement is generic_visited, which walks the
statements nested in it. -/
def visitStmt (st : ExtState) : Stmt → ExtState
  | .assign targets value vpos => visit_Assign st targets value vpos
  | .exprStmt value => visit_Expr st value
  | .other body => visitList st body

/-- Visit a statement list in order, threading the extractor state. -/
def visitList (st : ExtState) : List Stmt → ExtState
  | [] => st
  | s :: rest => visitList (visitStmt st s) rest

end

/-- One emitted node of the output JSON: kind renamed to type. -/
structure OutNode where
  type : String
  config : List (String × ConfigVal)
  deriving DecidableEq, Repr

/-- The output JSON document { steps, fallbackToLlm }. -/
structure Output where
  steps : List OutNode
  fallbackToLlm : Bool
  deriving DecidableEq, Repr

/-- The three tiers main() distinguishes: ast.parse raised SyntaxError;
extractor.visit raised some exception (the state accumulated up to the
fault is recorded, and discarded by main); or the traversal completed
with a final state. -/
inductive RunOutcome where
  | parseError
  | fault (partialState : ExtState)
  | done (finalState : ExtState)
  deriving DecidableEq, Repr

/-- main() after reading stdin: both failure tiers print the fixed
fallback object; a completed traversal prints the accumulated steps with
kind renamed to type, and fallbackToLlm = flag or (no steps). -/
def mainOutput : RunOutcome → Output
  | .parseError => ⟨[], true⟩
  | .fault _ => ⟨[], true⟩
  | .done st =>
      ⟨st.steps.map (fun s => ⟨s.kind, s.config⟩),
       st.fallback_to_llm || st.steps.isEmpty⟩

/-- The fault-free end-to-end run on a parsed program. -/
def runProgram (source_lines : List String) (prog : List Stmt) : Output :=
  mainOutput (.done (visitList (initState source_lines) prog))

mutual

/-- Whether visiting one statement raises the fallback flag: a statement
whose single target is the tracked name and that matches no recognizer,
or a computed-column statement (single subscript target with a resolvable
column name) whose span reconstruction is empty; for a compound
statement, whether any statement nested in it does. -/
def fallbackTrigger (lines : List String) (dfn : String) : Stmt → Bool
  | .assign targets value vpos =>
      (recognizeAssign lines dfn targets value vpos).1.isNone &&
      (match targets with
       | [t] =>
           (match t with
            | .name id => id == dfn
            | .subscript tb ts =>
                (get_string_from_node (.subscript tb ts)).isSome
                  && (unparse_simple vpos lines == "")
            | _ => false)
       | _ => false)
  | .exprStmt _ => false
  | .other body => fallbackTriggerList lines dfn body

/-- Whether any statement of the list raises the fallback flag. -/
def fallbackTriggerList (lines : List String) (dfn : String) : List Stmt → Bool
  | [] => false
  | s :: rest =>
      fallbackTrigger lines dfn s || fallbackTriggerList lines dfn rest

end

mutual

/-- The steps visiting one statement appends. -/
def stmtSteps (lines : List String) (dfn : String) : Stmt → List Step
  | .assign targets value vpos =>
      (recognizeAssign lines dfn targets value vpos).1.toList
  | .exprStmt value => (recognizeExpr value).toList
  | .other body => listSteps lines dfn body

/-- The steps visiting a statement list appends, in visit order. -/
def listSteps (lines : List String) (dfn : String) : List Stmt → List Step
  | [] => []
  | s :: rest => stmtSteps lines dfn s ++ listSteps lines dfn rest

end

/-- The flag component of recognizeAssign, characterized: the flag rises
exactly when no recognizer emitted a step and the statement is either a
single assignment to the tracked name or a computed-column shape whose
span came back empty. -/
theorem recognizeAssign_flag (lines : List String) (dfn : String)
    (targets : List Expr) (value : Expr) (vpos : Pos) :
    (recognizeAssign lines dfn targets value vpos).2 =
      ((recognizeAssign lines dfn targets value vpos).1.isNone &&
       (match targets with
        | [t] =>
            (match t with
             | .name id => id == dfn
             | .subscript tb ts =>
                 (get_string_from_node (.subscript tb ts)).isSome
                   && (unparse_simple vpos lines == "")
             | _ => false)
        | _ => false)) := by
  rcases targets with _ | ⟨t, _ | ⟨t2, rest⟩⟩
  · rfl
  · unfold recognizeAssign
    cases hfs : filter_select_step value with
    | some stp => simp
    | none =>
        cases hcs : call_step value with
        | some stp => simp
        | none =>
            cases t with
            | subscript tb ts =>
                cases hg : get_string_from_node (Expr.subscript tb ts) with
                | some col =>
                    by_cases hu : (unparse_simple vpos lines == "") = true <;>
                      simp [hg, hu]
                | none => simp [hg]
            | _ => simp
  · rfl

mutual

/-- Visiting one statement appends its steps and ors in its trigger; the
lines and the tracked name are never changed. -/
theorem visitStmt_hom (lines : List String) (dfn : String) (steps : List Step)
    (fb : Bool) (s : Stmt) :
    visitStmt ⟨lines, steps, fb, dfn⟩ s =
      ⟨lines, steps ++ stmtSteps lines dfn s,
       fb || fallbackTrigger lines dfn s, dfn⟩ := by
  cases s with
  | assign targets value vpos =>
      simp [visitStmt, visit_Assign, stmtSteps, fallbackTrigger,
        recognizeAssign_flag lines dfn targets value vpos]
  | exprStmt value => simp [visitStmt, visit_Expr, stmtSteps, fallbackTrigger]
  | other body =>
      simpa [visitStmt, stmtSteps, fallbackTrigger] using
        visitList_hom lines dfn steps fb body

/-- Visiting a statement list appends the list's steps and ors in the
list's trigger. -/
theorem visitList_hom (lines : List String) (dfn : String) (steps : List Step)
    (fb : Bool) (ss : List Stmt) :
    visitList ⟨lines, steps, fb, dfn⟩ ss =
      ⟨lines, steps ++ listSteps lines dfn ss,
       fb || fallbackTriggerList lines dfn ss, dfn⟩ := by
  cases ss with
  | nil => simp [visitList, listSteps, fallbackTriggerList]
  | cons s rest =>
      rw [visitList, visitStmt_hom lines dfn steps fb s,
        visitList_hom lines dfn _ _ rest]
      simp [listSteps, fallbackTriggerList, Bool.or_assoc]

end

/-- The right-hand side shape of a literal filter, var[ var[col] op lit ]. -/
def cmpFilterRhs (b c : String) (op : CmpOp) (v : PyVal) : Expr :=
  Expr.subscript (Expr.name b)
    (Expr.compare (Expr.subscript (Expr.name b) (Expr.constant (PyVal.str c)))
      [op] [Expr.constant v])

/-- A filter-shaped assignment emits its filter step whenever the column
string is truthy, the comparison operator is in FILTER_OPS and the
literal is not None - independently of the target and base names. -/
theorem filter_emit (lines : List String) (dfn t b c : String) (op : CmpOp)
    (opName : String) (v : PyVal) (vpos : Pos)
    (hc : (c == "") = false) (hv : (v == PyVal.noneV) = false)
    (hop : FILTER_OPS op = some opName) :
    recognizeAssign lines dfn [Expr.name t] (cmpFilterRhs b c op v) vpos
      = (some ⟨"filter",
          [("column", .s c), ("operator", .s opName),
           ("value", .s (pyStr v))]⟩, false) := by
  simp [recognizeAssign, cmpFilterRhs, filter_select_step, unwrap_value_attr,
    get_string_from_node, get_constant_value, hop, hc, hv]

/-- The element loop of get_column_list collects exactly the elements
that resolve to a string, in order. -/
theorem column_strings_eq_filterMap (elts : List Expr) :
    column_strings elts = elts.filterMap get_string_from_node := by
  suffices h : ∀ acc : List String,
      elts.foldl (fun acc e =>
        match get_string_from_node e with
        | some s => acc ++ [s]
        | none => acc) acc = acc ++ elts.filterMap get_string_from_node by
    simpa [column_strings] using h []
  induction elts with
  | nil => simp
  | cons e rest ih =>
      intro acc
      cases hg : get_string_from_node e <;> simp [hg, ih]

/-- C1, counterexample: the claimed iff fails in the only-if direction.
In the program "y = pd.read_csv(a.csv); df = x = foo()" the second
statement assigns to the tracked dataframe variable df and matches no
recognizer (visiting it leaves the extractor state untouched, because
visit_Assign ignores multi-target assignments), the run parses, completes
without fault and produces one step - yet fallbackToLlm is false. -/
theorem c1_counterexample :
    runProgram []
        [Stmt.assign [Expr.name "y"]
           (Expr.call (Expr.attribute (Expr.name "pd") "read_csv")
             [Expr.constant (PyVal.str "a.csv")] []) ⟨1, 1⟩,
         Stmt.assign [Expr.name "df", Expr.name "x"]
           (Expr.call (Expr.name "foo") [] []) ⟨2, 2⟩]
      = ⟨[⟨"dataSource", [("fileName", .s "a.csv")]⟩], false⟩
    ∧ visitStmt (initState [])
        (Stmt.assign [Expr.name "df", Expr.name "x"]
           (Expr.call (Expr.name "foo") [] []) ⟨2, 2⟩)
      = initState [] :=
  ⟨rfl, rfl⟩

/-- C1, amended: fallbackToLlm is true iff the source failed to parse, or
an internal fault occurred, or zero steps were produced, or some
statement of the run (nested ones included) triggered the flag - where a
statement triggers the flag iff it matched no recognizer and is either a
SINGLE-target assignment whose sole target is the tracked name, or a
computed-column assignment (single subscript target with a resolvable
column name) whose span reconstruction came back empty. -/
theorem c1_fallback_characterization (lines : List String) (prog : List Stmt)
    (stPartial : ExtState) :
    (mainOutput RunOutcome.parseError).fallbackToLlm = true
    ∧ (mainOutput (RunOutcome.fault stPartial)).fallbackToLlm = true
    ∧ ((runProgram lines prog).fallbackToLlm = true ↔
        (fallbackTriggerList lines "df" prog = true
          ∨ listSteps lines "df" prog = [])) := by
  refine ⟨rfl, rfl, ?_⟩
  unfold runProgram
  rw [show initState lines = ⟨lines, [], false, "df"⟩ from rfl,
    visitList_hom]
  simp [mainOutput, List.isEmpty_iff]

/-- C2: an input whose text fails to parse yields exactly the object
with empty steps and fallbackToLlm true, and (mainOutput being a total
function) no exception reaches the caller. -/
theorem c2_parse_failure_output :
    mainOutput RunOutcome.parseError = ⟨[], true⟩ := rfl

/-- C3: a fault raised during the recognition traversal yields exactly
the fallback object, whatever state (in particular whatever accumulated
steps) the extractor had reached: the steps are discarded and the
partial-success shape is never produced on this path. -/
theorem c3_fault_atomic (stPartial : ExtState) :
    mainOutput (RunOutcome.fault stPartial) = ⟨[], true⟩ := rfl

/-- C4: within one run the flag is monotonic and non-destructive -
visiting any statement leaves the previous steps as a prefix and only
ors onto the flag - and the concrete script "df = pd.read_csv(a.csv);
df = transform(df)" yields exactly the one recognized step together with
fallbackToLlm true. -/
theorem c4_monotonic_flag (st : ExtState) (s : Stmt) :
    visitStmt st s
      = ⟨st.lines, st.steps ++ stmtSteps st.lines st.df_name s,
         st.fallback_to_llm || fallbackTrigger st.lines st.df_name s,
         st.df_name⟩
    ∧ runProgram []
        [Stmt.assign [Expr.name "df"]
           (Expr.call (Expr.attribute (Expr.name "pd") "read_csv")
             [Expr.constant (PyVal.str "a.csv")] []) ⟨1, 1⟩,
         Stmt.assign [Expr.name "df"]
           (Expr.call (Expr.name "transform") [Expr.name "df"] []) ⟨2, 2⟩]
      = ⟨[⟨"dataSource", [("fileName", .s "a.csv")]⟩], true⟩ := by
  refine ⟨?_, rfl⟩
  cases st with
  | mk lines steps fb dfn => exact visitStmt_hom lines dfn steps fb s

/-- C5, counterexample: idiom matching is not scoped to the tracked
identifier.  The assignment x = y[y[a] > 1] - written entirely over
variable names other than df - does emit a filter step, where the claim
says no step is emitted. -/
theorem c5_counterexample :
    runProgram []
        [Stmt.assign [Expr.name "x"]
           (Expr.subscript (Expr.name "y")
             (Expr.compare
               (Expr.subscript (Expr.name "y") (Expr.constant (PyVal.str "a")))
               [CmpOp.gt] [Expr.constant (PyVal.int 1)])) ⟨1, 1⟩]
      = ⟨[⟨"filter",
           [("column", .s "a"), ("operator", .s "gt"), ("value", .s "1")]⟩],
         false⟩ := rfl

/-- C5, amended: recognizers fire on statement shape alone, regardless of
the identifiers involved: a filter-shaped assignment over ANY target name
and ANY base name emits the same filter step; the tracked identifier is
consulted only when deciding whether an unrecognized assignment sets the
fallback flag. -/
theorem c5_shape_only_matching (lines : List String)
    (dfn t b c : String) (op : CmpOp) (opName : String) (v : PyVal)
    (vpos : Pos) (hc : (c == "") = false) (hv : (v == PyVal.noneV) = false)
    (hop : FILTER_OPS op = some opName) :
    recognizeAssign lines dfn [Expr.name t] (cmpFilterRhs b c op v) vpos
      = (some ⟨"filter",
          [("column", .s c), ("operator", .s opName),
           ("value", .s (pyStr v))]⟩, false) :=
  filter_emit lines dfn t b c op opName v vpos hc hv hop

/-- Witness for C5 amended: the claim's own example x = y[y[a] > 1]. -/
theorem c5_shape_only_matching_witness :
    recognizeAssign [] "df" [Expr.name "x"]
        (cmpFilterRhs "y" "a" CmpOp.gt (PyVal.int 1)) ⟨1, 1⟩
      = (some ⟨"filter",
          [("column", .s "a"), ("operator", .s "gt"), ("value", .s "1")]⟩,
         false) :=
  c5_shape_only_matching [] "df" "x" "y" "a" CmpOp.gt "gt" (PyVal.int 1)
    ⟨1, 1⟩ (by decide) (by decide) rfl

/-- C6, counterexample: the column-list extractor does not decline when
an element fails to resolve to a string - it skips it.  For
v = v[[a, 1]] the extractor returns the singleton list [a] and a select
step is emitted, where the claim says it returns no value and no select
step is emitted. -/
theorem c6_counterexample :
    get_column_list (Expr.subscript (Expr.name "v")
        (Expr.listE [Expr.constant (PyVal.str "a"), Expr.constant (PyVal.int 1)]))
      = some ["a"]
    ∧ runProgram []
        [Stmt.assign [Expr.name "v"]
           (Expr.subscript (Expr.name "v")
             (Expr.listE [Expr.constant (PyVal.str "a"),
                          Expr.constant (PyVal.int 1)])) ⟨1, 1⟩]
      = ⟨[⟨"select", [("columns", .strList ["a"])]⟩], false⟩ :=
  ⟨rfl, rfl⟩

/-- C6, amended: on a list-literal index the column-list extractor
returns the subsequence of elements that resolve to strings, in order,
and returns no value exactly when that subsequence is empty; accordingly
the select step is emitted with that subsequence whenever it is
nonempty. -/
theorem c6_column_list_skips (lines : List String) (dfn t : String)
    (base : Expr) (elts : List Expr) (vpos : Pos) :
    get_column_list (Expr.subscript base (Expr.listE elts))
      = (if (elts.filterMap get_string_from_node).isEmpty then none
         else some (elts.filterMap get_string_from_node))
    ∧ (recognizeAssign lines dfn [Expr.name t]
         (Expr.subscript base (Expr.listE elts)) vpos).1
      = (if (elts.filterMap get_string_from_node).isEmpty then none
         else some ⟨"select",
           [("columns", .strList (elts.filterMap get_string_from_node))]⟩) := by
  have hcols := column_strings_eq_filterMap elts
  constructor
  · simp [get_column_list, unwrap_value_attr, hcols]
  · by_cases h : (elts.filterMap get_string_from_node).isEmpty = true <;>
      simp [recognizeAssign, filter_select_step, call_step, get_column_list,
        unwrap_value_attr, hcols, h]

/-- C7: the comparator collapse - over the same column and literal, a
filter with LtE and one with Lt produce identical outputs, both with
operator lt, and likewise GtE and Gt both produce operator gt. -/
theorem c7_lossy_comparators (lines : List String) (dfn t b c : String)
    (v : PyVal) (vpos : Pos) (hc : (c == "") = false)
    (hv : (v == PyVal.noneV) = false) :
    (recognizeAssign lines dfn [Expr.name t] (cmpFilterRhs b c CmpOp.ltE v) vpos
       = recognizeAssign lines dfn [Expr.name t] (cmpFilterRhs b c CmpOp.lt v) vpos)
    ∧ recognizeAssign lines dfn [Expr.name t] (cmpFilterRhs b c CmpOp.ltE v) vpos
       = (some ⟨"filter",
           [("column", .s c), ("operator", .s "lt"),
            ("value", .s (pyStr v))]⟩, false)
    ∧ (recognizeAssign lines dfn [Expr.name t] (cmpFilterRhs b c CmpOp.gtE v) vpos
       = recognizeAssign lines dfn [Expr.name t] (cmpFilterRhs b c CmpOp.gt v) vpos)
    ∧ recognizeAssign lines dfn [Expr.name t] (cmpFilterRhs b c CmpOp.gtE v) vpos
       = (some ⟨"filter",
           [("column", .s c), ("operator", .s "gt"),
            ("value", .s (pyStr v))]⟩, false) := by
  have hlte := filter_emit lines dfn t b c CmpOp.ltE "lt" v vpos hc hv rfl
  have hlt := filter_emit lines dfn t b c CmpOp.lt "lt" v vpos hc hv rfl
  have hgte := filter_emit lines dfn t b c CmpOp.gtE "gt" v vpos hc hv rfl
  have hgt := filter_emit lines dfn t b c CmpOp.gt "gt" v vpos hc hv rfl
  exact ⟨hlte.trans hlt.symm, hlte, hgte.trans hgt.symm, hgte⟩

/-- Witness for C7 at column age, literal 30. -/
theorem c7_lossy_comparators_witness :
    (recognizeAssign [] "df" [Expr.name "df"]
        (cmpFilterRhs "df" "age" CmpOp.ltE (PyVal.int 30)) ⟨1, 1⟩
       = recognizeAssign [] "df" [Expr.name "df"]
           (cmpFilterRhs "df" "age" CmpOp.lt (PyVal.int 30)) ⟨1, 1⟩)
    ∧ recognizeAssign [] "df" [Expr.name "df"]
        (cmpFilterRhs "df" "age" CmpOp.ltE (PyVal.int 30)) ⟨1, 1⟩
       = (some ⟨"filter",
           [("column", .s "age"), ("operator", .s "lt"),
            ("value", .s "30")]⟩, false)
    ∧ (recognizeAssign [] "df" [Expr.name "df"]
        (cmpFilterRhs "df" "age" CmpOp.gtE (PyVal.int 30)) ⟨1, 1⟩
       = recognizeAssign [] "df" [Expr.name "df"]
           (cmpFilterRhs "df" "age" CmpOp.gt (PyVal.int 30)) ⟨1, 1⟩)
    ∧ recognizeAssign [] "df" [Expr.name "df"]
        (cmpFilterRhs "df" "age" CmpOp.gtE (PyVal.int 30)) ⟨1, 1⟩
       = (some ⟨"filter",
           [("column", .s "age"), ("operator", .s "gt"),
            ("value", .s "30")]⟩, false) :=
  c7_lossy_comparators [] "df" "df" "df" "age" (PyVal.int 30) ⟨1, 1⟩
    (by decide) (by decide)

/-- The call shape var.groupby(g) over an arbitrary callee. -/
def gbCallRhs (base : Expr) (g : String) : Expr :=
  Expr.call (Expr.attribute base "groupby") [Expr.constant (PyVal.str g)] []

/-- C8: an aggregation method sum / mean / count / min / max chained
after a groupby call emits a groupBy step whose groupByColumn is the
argument of the groupby call found while unwinding the wrappers, whose
aggregateColumn comes from the intervening column selection - and equals
the groupByColumn when there is none - and whose aggregation is the
method name with mean renamed to avg; over any callee base and any
arguments of the aggregation call itself. -/
theorem c8_chained_aggregation (lines : List String) (dfn t : String)
    (base : Expr) (g c m : String) (margs : List Expr)
    (mkws : List (Option String × Expr)) (vpos : Pos)
    (hm : (m == "sum" || m == "mean" || m == "count"
            || m == "min" || m == "max") = true)
    (hc : (c == "") = false) :
    recognizeAssign lines dfn [Expr.name t]
        (Expr.call (Expr.attribute
          (Expr.subscript (gbCallRhs base g) (Expr.constant (PyVal.str c))) m)
          margs mkws) vpos
      = (some ⟨"groupBy",
          [("groupByColumn", .s g), ("aggregateColumn", .s c),
           ("aggregation", .s (if m == "mean" then "avg" else m))]⟩, false)
    ∧ recognizeAssign lines dfn [Expr.name t]
        (Expr.call (Expr.attribute (gbCallRhs base g) m) margs mkws) vpos
      = (some ⟨"groupBy",
          [("groupByColumn", .s g), ("aggregateColumn", .s g),
           ("aggregation", .s (if m == "mean" then "avg" else m))]⟩, false) := by
  simp only [Bool.or_eq_true, beq_iff_eq] at hm
  obtain ((((h | h) | h) | h) | h) := hm <;> subst h <;>
    refine ⟨?_, ?_⟩ <;>
    simp [recognizeAssign, filter_select_step, call_step, read_csv_step,
      groupby_step, chained_agg_step, chain_walk, sort_step, melt_step,
      gbCallRhs, get_string_from_node, unwrap_value_attr, hc]

/-- Witness for C8: df.groupby(city)[pop].mean() and
df.groupby(city).mean(). -/
theorem c8_chained_aggregation_witness :
    recognizeAssign [] "df" [Expr.name "df"]
        (Expr.call (Expr.attribute
          (Expr.subscript (gbCallRhs (Expr.name "df") "city")
            (Expr.constant (PyVal.str "pop"))) "mean") [] []) ⟨1, 1⟩
      = (some ⟨"groupBy",
          [("groupByColumn", .s "city"), ("aggregateColumn", .s "pop"),
           ("aggregation", .s (if "mean" == "mean" then "avg" else "mean"))]⟩,
         false)
    ∧ recognizeAssign [] "df" [Expr.name "df"]
        (Expr.call (Expr.attribute (gbCallRhs (Expr.name "df") "city") "mean")
          [] []) ⟨1, 1⟩
      = (some ⟨"groupBy",
          [("groupByColumn", .s "city"), ("aggregateColumn", .s "city"),
           ("aggregation", .s (if "mean" == "mean" then "avg" else "mean"))]⟩,
         false) :=
  c8_chained_aggregation [] "df" "df" (Expr.name "df") "city" "pop" "mean"
    [] [] ⟨1, 1⟩ (by decide) (by decide)

/-- C9: a recognized chart expression statement resolves its first
positional argument to xAxis and its second to yAxis when there are two
or more, resolves the sole argument to yAxis (with xAxis left empty)
when there is exactly one, and an argument that does not resolve to a
string contributes the empty string instead of making the recognizer
decline. -/
theorem c9_chart_axes (base a0 a1 : Expr) (rest : List Expr)
    (kws : List (Option String × Expr)) (meth : String)
    (hm : (meth == "bar" || meth == "plot" || meth == "scatter"
            || meth == "pie") = true) :
    recognizeExpr (Expr.call (Expr.attribute (Expr.attribute base "pyplot") meth)
        (a0 :: a1 :: rest) kws)
      = some ⟨"chart",
          [("chartType", .s (if meth == "plot" then "line"
                             else if meth == "scatter" then "scatter"
                             else if meth == "pie" then "pie" else "bar")),
           ("xAxis", .s ((get_string_from_node a0).getD "")),
           ("yAxis", .s ((get_string_from_node a1).getD ""))]⟩
    ∧ recognizeExpr (Expr.call (Expr.attribute (Expr.attribute base "pyplot") meth)
        [a0] kws)
      = some ⟨"chart",
          [("chartType", .s (if meth == "plot" then "line"
                             else if meth == "scatter" then "scatter"
                             else if meth == "pie" then "pie" else "bar")),
           ("xAxis", .s ""),
           ("yAxis", .s ((get_string_from_node a0).getD ""))]⟩ := by
  constructor <;> simp [recognizeExpr, is_plt_name, hm]

/-- Witness for C9: plotting calls with a resolving and a non-resolving
argument. -/
theorem c9_chart_axes_witness :
    recognizeExpr (Expr.call
        (Expr.attribute (Expr.attribute (Expr.name "matplotlib") "pyplot") "bar")
        (Expr.subscript (Expr.name "df") (Expr.constant (PyVal.str "x"))
          :: Expr.name "ys" :: []) [])
      = some ⟨"chart",
          [("chartType", .s (if "bar" == "plot" then "line"
                             else if "bar" == "scatter" then "scatter"
                             else if "bar" == "pie" then "pie" else "bar")),
           ("xAxis", .s ((get_string_from_node
              (Expr.subscript (Expr.name "df") (Expr.constant (PyVal.str "x")))).getD "")),
           ("yAxis", .s ((get_string_from_node (Expr.name "ys")).getD ""))]⟩
    ∧ recognizeExpr (Expr.call
        (Expr.attribute (Expr.attribute (Expr.name "matplotlib") "pyplot") "bar")
        [Expr.subscript (Expr.name "df") (Expr.constant (PyVal.str "x"))] [])
      = some ⟨"chart",
          [("chartType", .s (if "bar" == "plot" then "line"
                             else if "bar" == "scatter" then "scatter"
                             else if "bar" == "pie" then "pie" else "bar")),
           ("xAxis", .s ""),
           ("yAxis", .s ((get_string_from_node
              (Expr.subscript (Expr.name "df") (Expr.constant (PyVal.str "x")))).getD ""))]⟩ :=
  c9_chart_axes (Expr.name "matplotlib")
    (Expr.subscript (Expr.name "df") (Expr.constant (PyVal.str "x")))
    (Expr.name "ys") [] [] "bar" (by decide)

/-- C10: a plotting call rooted at a bare name - such as plt.bar(...)
with plt a simple identifier - never emits a chart step and leaves the
extractor state unchanged; the chart recognizer can only fire when the
call's function is an attribute of an attribute node whose attribute
name is pyplot, so the source's plt-name condition is unreachable. -/
theorem c10_bare_name_no_chart (st : ExtState) (id attr : String)
    (args : List Expr) (kws : List (Option String × Expr))
    (b : Expr) (battr m : String) :
    visit_Expr st (Expr.call (Expr.attribute (Expr.name id) attr) args kws) = st
    ∧ recognizeExpr (Expr.call (Expr.attribute (Expr.name id) attr) args kws)
        = none
    ∧ (battr = "pyplot"
        ∨ recognizeExpr (Expr.call (Expr.attribute (Expr.attribute b battr) m)
            args kws) = none) := by
  refine ⟨?_, rfl, ?_⟩
  · cases st with
    | mk lines steps fb dfn => simp [visit_Expr, recognizeExpr]
  · cases hb : battr == "pyplot" with
    | true => exact Or.inl (by simpa using hb)
    | false => exact Or.inr (by simp [recognizeExpr, is_plt_name, hb])

end Convoy
